import Mathlib

/-!
Shallow embedding of the stm32-an3155 host-side AN3155 bootloader driver.

The session layer (`src/stm32-an3155/src/lib.rs`, crate `stm32_an3155_rs`) is
embedded with the serial line modelled as a `Stream`: a list of bytes the
device will send (`input`, consumed in order) and the list of bytes the host
has written so far (`output`).  Fallible operations return
`Except (Error × Stream) (α × Stream)`, so the stream state at the moment of
failure is retained, exactly as the Rust `&mut self` receiver is.  Machine
bytes are `Nat`s; every place the Rust code casts (`as u8`) or performs
wrapping `u8` arithmetic is modelled with an explicit `% 256`.

The orchestrator layer (`src/stm32_an3155/src/lib.rs`: `erase` page planning
and `flash`) is embedded on top of the session functions, with a ghost call
trace recording the `write_memory` / `read_memory` calls issued.
-/

set_option maxRecDepth 100000

namespace AN3155

/-- Maximum number of pages in a single standard erase command
(`MAX_ERASE_PAGE_COUNT = u8::MAX as usize`). -/
def MAX_ERASE_PAGE_COUNT : Nat := 255

/-- Maximum bytes in a single write memory command
(`MAX_WRITE_BYTES_COUNT = u8::MAX as usize + 1`). -/
def MAX_WRITE_BYTES_COUNT : Nat := 256

/-- Maximum bytes in a single read memory command
(`MAX_READ_BYTES_COUNT = u8::MAX as usize + 1`). -/
def MAX_READ_BYTES_COUNT : Nat := 256

/-- Default page size in bytes (`DEFAULT_PAGE_SIZE`). -/
def DEFAULT_PAGE_SIZE : Nat := 128

/-- Default starting target address (`DEFAULT_START_ADDRESS = 0x0800_0000`). -/
def DEFAULT_START_ADDRESS : Nat := 0x08000000

/-- The `BootloaderCommand` enum (src/stm32-an3155/src/lib.rs:34-65). -/
inductive BootloaderCommand
  | get
  | getVersion
  | getId
  | readMemory
  | go
  | writeMemory
  | erase
  | extendedErase
  | special
  | extendedSpecial
  | writeProtect
  | writeUnprotect
  | readoutProtect
  | readoutUnprotect
  | getChecksum
deriving DecidableEq, Repr

/-- The fixed byte value of each command (`#[repr(u8)]` discriminants). -/
def BootloaderCommand.toByte : BootloaderCommand → Nat
  | .get => 0x00
  | .getVersion => 0x01
  | .getId => 0x02
  | .readMemory => 0x11
  | .go => 0x21
  | .writeMemory => 0x31
  | .erase => 0x43
  | .extendedErase => 0x44
  | .special => 0x50
  | .extendedSpecial => 0x51
  | .writeProtect => 0x63
  | .writeUnprotect => 0x73
  | .readoutProtect => 0x82
  | .readoutUnprotect => 0x92
  | .getChecksum => 0xA1

/-- The `Response` enum: `Ack = 0x79`, `Nack = 0x1F`. -/
inductive Response
  | ack
  | nack
deriving DecidableEq, Repr

/-- The `Error` enum (src/stm32-an3155/src/lib.rs:133-152), together with a
`transport` constructor standing for the `anyhow`/`std::io` errors the Rust
code propagates from the serial stream (short read, timeout, write-zero). -/
inductive Error
  | invalidResponse (b : Nat)
  | nack
  | invalidBootloaderCommand (b : Nat)
  | unsupported
  | erasePageCount (n : Nat)
  | writeBytesCount (n : Nat)
  | transport
deriving DecidableEq, Repr

deriving instance DecidableEq for Except

/-- `BootloaderCommand::try_from` (src/stm32-an3155/src/lib.rs:67-89). -/
def BootloaderCommand.try_from (v : Nat) : Except Error BootloaderCommand :=
  match v with
  | 0x00 => .ok .get
  | 0x01 => .ok .getVersion
  | 0x02 => .ok .getId
  | 0x11 => .ok .readMemory
  | 0x21 => .ok .go
  | 0x31 => .ok .writeMemory
  | 0x43 => .ok .erase
  | 0x44 => .ok .extendedErase
  | 0x50 => .ok .special
  | 0x51 => .ok .extendedSpecial
  | 0x63 => .ok .writeProtect
  | 0x73 => .ok .writeUnprotect
  | 0x82 => .ok .readoutProtect
  | 0x92 => .ok .readoutUnprotect
  | 0xA1 => .ok .getChecksum
  | _ => .error (.invalidBootloaderCommand v)

/-- `Response::try_from` (src/stm32-an3155/src/lib.rs:100-110). -/
def Response.try_from (v : Nat) : Except Error Response :=
  match v with
  | 0x79 => .ok .ack
  | 0x1F => .ok .nack
  | _ => .error (.invalidResponse v)

/-- Bitwise complement of a byte: Rust `!(b : u8)`.  For `b < 256` this is
`255 - b`. -/
def compl8 (b : Nat) : Nat := 255 - b % 256

/-- The universal two-byte command-frame header `[cmd, !cmd]` built in
`write_command` (src/stm32-an3155/src/lib.rs:268). -/
def encode_command (c : BootloaderCommand) : List Nat :=
  [c.toByte, compl8 c.toByte]

/-- The XOR-fold checksum with seed 0, as computed in `write_with_checksum`
(src/stm32-an3155/src/lib.rs:279): `bytes.iter().fold(0u8, |acc, b| acc ^ *b)`. -/
def checksum (bytes : List Nat) : Nat :=
  bytes.foldl (fun acc b => acc ^^^ b) 0

/-- `u32::to_be_bytes` on a value already reduced mod `2^32`. -/
def u32_be (v : Nat) : List Nat :=
  [v / 2 ^ 24 % 256, v / 2 ^ 16 % 256, v / 2 ^ 8 % 256, v % 256]

/-- `u16::from_be_bytes` on a two-byte buffer. -/
def u16_from_be (bs : List Nat) : Nat :=
  match bs with
  | [a, b] => a * 256 + b
  | _ => 0

/-- The 15 byte values accepted by `BootloaderCommand::try_from`. -/
def commandBytes : List Nat :=
  [0x00, 0x01, 0x02, 0x11, 0x21, 0x31, 0x43, 0x44, 0x50, 0x51, 0x63, 0x73,
   0x82, 0x92, 0xA1]

/-- `true` iff an `Except` value is `ok`. -/
def okB {ε α : Type} : Except ε α → Bool
  | .ok _ => true
  | .error _ => false

/-- The serial line as seen by one session: `input` holds the bytes the device
will send (consumed front to back), `output` the bytes the host has written so
far.  This models the `Box<dyn serialport::SerialPort>` field of the `AN3155`
struct. -/
structure Stream where
  input : List Nat
  output : List Nat
deriving DecidableEq, Repr

/-- Result type of a fallible session operation: on failure the stream state at
the moment of the error is retained (the Rust methods take `&mut self`, so the
serial object survives an `Err` return). -/
abbrev SessionResult (α : Type) := Except (Error × Stream) (α × Stream)

/-- `AN3155::write` (src/stm32-an3155/src/lib.rs:259-264): write bytes to the
serial port, returning the count written.  The model writes everything. -/
def write_all (s : Stream) (bytes : List Nat) : Nat × Stream :=
  (bytes.length, { s with output := s.output ++ bytes })

/-- `AN3155::read_exact` (src/stm32-an3155/src/lib.rs:299-304): read exactly
`n` bytes, failing (transport error) when the device sends fewer. -/
def read_exact (s : Stream) (n : Nat) : SessionResult (List Nat) :=
  if n ≤ s.input.length then
    .ok (s.input.take n, { s with input := s.input.drop n })
  else
    .error (.transport, s)

/-- `AN3155::read_byte` (src/stm32-an3155/src/lib.rs:306-310). -/
def read_byte (s : Stream) : SessionResult Nat :=
  match read_exact s 1 with
  | .error es => .error es
  | .ok (buf, s) => .ok (buf.headD 0, s)

/-- `AN3155::read_ack` (src/stm32-an3155/src/lib.rs:312-325): read one byte,
decode it as a `Response`; `Nack` becomes the `Error::Nack` failure. -/
def read_ack (s : Stream) : SessionResult Unit :=
  match read_byte s with
  | .error es => .error es
  | .ok (b, s) =>
    match Response.try_from b with
    | .error e => .error (e, s)
    | .ok .ack => .ok ((), s)
    | .ok .nack => .error (.nack, s)

/-- `AN3155::write_command` (src/stm32-an3155/src/lib.rs:267-276): send
`[cmd, !cmd]`, fail if fewer than 2 bytes were written, then read an ack. -/
def write_command (s : Stream) (c : BootloaderCommand) : SessionResult Unit :=
  let (n, s) := write_all s (encode_command c)
  if n ≠ 2 then .error (.transport, s)
  else read_ack s

/-- `AN3155::write_with_checksum` (src/stm32-an3155/src/lib.rs:278-287): write
the bytes, then their XOR-fold checksum (seed 0), returning `n + 1`. -/
def write_with_checksum (s : Stream) (bytes : List Nat) : SessionResult Nat :=
  let chksum := checksum bytes
  let (n, s) := write_all s bytes
  let (_, s) := write_all s [chksum]
  .ok (n + 1, s)

/-- `AN3155::get_id` (src/stm32-an3155/src/lib.rs:346-364): send the GetId
header, read a length byte which must be 1 (otherwise
`InvalidResponse(n as u8)`), then read 2 big-endian product-id bytes and
return.  Note: the source returns straight after the two id bytes — it never
reads the trailing ack. -/
def get_id (s : Stream) : SessionResult Nat :=
  match write_command s .getId with
  | .error es => .error es
  | .ok (_, s) =>
    match read_byte s with
    | .error es => .error es
    | .ok (n, s) =>
      if n ≠ 1 then
        .error (.invalidResponse (n % 256), s)
      else
        match read_exact s 2 with
        | .error es => .error es
        | .ok (buf, s) => .ok (u16_from_be buf, s)

/-- `AN3155::standard_erase` (src/stm32-an3155/src/lib.rs:406-430): empty page
list is a no-op success; more than `MAX_ERASE_PAGE_COUNT` pages fails with
`ErasePageCount` before anything is written; otherwise send the Erase header,
the count byte `n - 1`, the pages, and the XOR checksum seeded with `n - 1`,
then read the trailing ack. -/
def standard_erase (s : Stream) (pages : List Nat) : SessionResult Unit :=
  if pages.isEmpty then .ok ((), s)
  else if pages.length > MAX_ERASE_PAGE_COUNT then
    .error (.erasePageCount pages.length, s)
  else
    let n := (pages.length - 1) % 256
    let chksum := pages.foldl (fun acc page => acc ^^^ page) n
    match write_command s .erase with
    | .error es => .error es
    | .ok (_, s) =>
      let (_, s) := write_all s [n]
      let (_, s) := write_all s pages
      let (_, s) := write_all s [chksum]
      read_ack s

/-- Wrapping cast-and-decrement `bytes.len() as u8 - 1` of the Rust source:
`u8` arithmetic wraps (release semantics), so this is `(len % 256 + 255) % 256`.
For `1 ≤ len ≤ 256` it equals `len - 1`. -/
def len_byte (len : Nat) : Nat := (len % 256 + 255) % 256

/-- `AN3155::write_memory` (src/stm32-an3155/src/lib.rs:485-508): empty slice
is a no-op success; more than `MAX_WRITE_BYTES_COUNT` bytes fails with
`WriteBytesCount`; otherwise send the WriteMemory header, the big-endian
address with checksum, read an ack, then send one data frame
`[n, data..., checksum]` where `n = len - 1` (as `u8`) and the checksum is the
XOR-fold of the data seeded with `n`, and read the trailing ack. -/
def write_memory (s : Stream) (address : Nat) (bytes : List Nat) :
    SessionResult Unit :=
  if bytes.isEmpty then .ok ((), s)
  else if bytes.length > MAX_WRITE_BYTES_COUNT then
    .error (.writeBytesCount bytes.length, s)
  else
    match write_command s .writeMemory with
    | .error es => .error es
    | .ok (_, s) =>
      match write_with_checksum s (u32_be (address % 2 ^ 32)) with
      | .error es => .error es
      | .ok (_, s) =>
        match read_ack s with
        | .error es => .error es
        | .ok (_, s) =>
          let n := len_byte bytes.length
          let chksum := bytes.foldl (fun acc b => acc ^^^ b) n
          let (_, s) := write_all s [n]
          let (_, s) := write_all s bytes
          let (_, s) := write_all s [chksum]
          read_ack s

/-- `AN3155::read_memory` (src/stm32-an3155/src/lib.rs:510-536), translated
exactly as written: empty destination is a no-op success; more than
`MAX_READ_BYTES_COUNT` bytes fails with `WriteBytesCount` (the source reuses
the write-side error variant); otherwise the source sends the **WriteMemory**
header (`BootloaderCommand::WriteMemory`, line 522), the big-endian address
with checksum, reads an ack, sends `[n, !n]` with `n = len - 1` (as `u8`),
then reads `(n + 1) as u8` bytes into a **local** buffer `buf` — the caller's
destination slice is never written — and reads the trailing ack.  The returned
list is the final contents of the caller's destination, which the source
leaves untouched. -/
def read_memory (s : Stream) (address : Nat) (dest : List Nat) :
    SessionResult (List Nat) :=
  if dest.isEmpty then .ok (dest, s)
  else if dest.length > MAX_READ_BYTES_COUNT then
    .error (.writeBytesCount dest.length, s)
  else
    match write_command s .writeMemory with
    | .error es => .error es
    | .ok (_, s) =>
      match write_with_checksum s (u32_be (address % 2 ^ 32)) with
      | .error es => .error es
      | .ok (_, s) =>
        match read_ack s with
        | .error es => .error es
        | .ok (_, s) =>
          let n := len_byte dest.length
          let chksum := compl8 n
          let bufLen := (n + 1) % 256
          let (_, s) := write_all s [n, chksum]
          match read_exact s bufLen with
          | .error es => .error es
          | .ok (_buf, s) =>
            match read_ack s with
            | .error es => .error es
            | .ok (_, s) => .ok (dest, s)

/-- The erase planner of `erase` (src/stm32_an3155/src/lib.rs:100-107).  The
source computes `num_pages` as `((bytes as f64) / (128 as f64)).ceil() as u32`;
dividing a `u32` by the power of two `128 = 2^7` only shifts the `f64`
exponent, so the quotient is exact and its `ceil` is the exact natural-number
ceiling, i.e. `(bytes + 127) / 128`; the result is below `2^32`, so the
`as u32` cast is the identity.  `start_offset` is a `u32` subtraction the
source only reaches for `address ≥ DEFAULT_START_ADDRESS` (callers check). -/
def pages_to_erase (address bytes : Nat) : List Nat :=
  let start_offset := address - DEFAULT_START_ADDRESS
  let start_page := start_offset / DEFAULT_PAGE_SIZE
  let num_pages := (bytes + DEFAULT_PAGE_SIZE - 1) / DEFAULT_PAGE_SIZE
  List.range' start_page num_pages

/-- Fuel-driven worker for `chunks256`: as long as the list is non-empty, emit
`take 256` and recurse on `drop 256`.  The fuel only bounds the recursion
depth; starting it at the list's length (which every step strictly decreases)
makes the zero-fuel branch unreachable, so the function computes the same
splitting as a well-founded recursion on the length while still reducing
definitionally. -/
def chunks_go : Nat → List Nat → List (List Nat)
  | _, [] => []
  | 0, _ => []
  | fuel + 1, bs =>
    bs.take MAX_WRITE_BYTES_COUNT :: chunks_go fuel (bs.drop MAX_WRITE_BYTES_COUNT)

/-- `bytes.chunks(MAX_WRITE_BYTES_COUNT)`: split into consecutive chunks of at
most 256 bytes. -/
def chunks256 (bs : List Nat) : List (List Nat) :=
  chunks_go bs.length bs

/-- Index of the first position where the zipped lists differ, as walked by the
verification loop of `flash` (src/stm32_an3155/src/lib.rs:164-171). -/
def firstMismatch : Nat → List Nat → List Nat → Option Nat
  | _, [], _ => none
  | _, _ :: _, [] => none
  | i, x :: xs, y :: ys => if x ≠ y then some i else firstMismatch (i + 1) xs ys

/-- Ghost trace of the session calls `flash` issues: one entry per
`write_memory` call (address, chunk written) and one per `read_memory` call
(address, destination contents on return). -/
structure FlashTrace where
  writes : List (Nat × List Nat)
  reads : List (Nat × List Nat)
deriving DecidableEq, Repr

/-- Outcome of a `flash` run: normal return, the `panic!` of the verification
loop (with the failing byte index), or a propagated session error. -/
inductive FlashResult
  | done (t : FlashTrace) (s : Stream)
  | verifyFail (byteIndex : Nat) (t : FlashTrace) (s : Stream)
  | err (e : Error) (t : FlashTrace) (s : Stream)
deriving DecidableEq, Repr

/-- The chunk loop of `flash` (src/stm32_an3155/src/lib.rs:151-173): for each
256-byte chunk in order, write it at `address + index * 256` (`u32` add), and
unless verification is skipped read the same range back into a zeroed buffer
of the chunk's length and compare byte-for-byte, panicking at the first
mismatch. -/
def flash_loop (address : Nat) (skipVerification : Bool) :
    List (List Nat) → Nat → FlashTrace → Stream → FlashResult
  | [], _, t, s => .done t s
  | chunk :: rest, index, t, s =>
    let addr := (address + index * MAX_WRITE_BYTES_COUNT) % 2 ^ 32
    match write_memory s addr chunk with
    | .error (e, s') => .err e { t with writes := t.writes ++ [(addr, chunk)] } s'
    | .ok (_, s') =>
      let t := { t with writes := t.writes ++ [(addr, chunk)] }
      if skipVerification then
        flash_loop address skipVerification rest (index + 1) t s'
      else
        let buf := List.replicate chunk.length 0
        match read_memory s' addr buf with
        | .error (e, s'') => .err e { t with reads := t.reads ++ [(addr, buf)] } s''
        | .ok (buf', s'') =>
          let t := { t with reads := t.reads ++ [(addr, buf')] }
          match firstMismatch 0 chunk buf' with
          | some i => .verifyFail i t s''
          | none => flash_loop address skipVerification rest (index + 1) t s''

/-- `flash` (src/stm32_an3155/src/lib.rs:143-175) with the file contents passed
directly (the `fs::read` of the firmware file is the external input). -/
def flash (s : Stream) (address : Nat) (fileBytes : List Nat)
    (skipVerification : Bool) : FlashResult :=
  flash_loop address skipVerification (chunks256 fileBytes) 0 ⟨[], []⟩ s

/-- Claim C7: for every byte `b` in `0x00..0xFF`, decoding `b` as a `Response`
succeeds iff `b` is `0x79` (Ack) or `0x1F` (Nack), otherwise it fails with
`InvalidResponse(b)`; decoding `b` as a `BootloaderCommand` succeeds iff `b`
is one of the 15 fixed command byte values, otherwise it fails with
`InvalidBootloaderCommand(b)`. -/
theorem decode_exhaustive :
    ∀ b : Fin 256,
      (okB (Response.try_from b.val) = true ↔ (b.val = 0x79 ∨ b.val = 0x1F)) ∧
      (Response.try_from b.val = .ok .ack ↔ b.val = 0x79) ∧
      (Response.try_from b.val = .ok .nack ↔ b.val = 0x1F) ∧
      (¬(b.val = 0x79 ∨ b.val = 0x1F) →
        Response.try_from b.val = .error (.invalidResponse b.val)) ∧
      (okB (BootloaderCommand.try_from b.val) = true ↔ b.val ∈ commandBytes) ∧
      (b.val ∉ commandBytes →
        BootloaderCommand.try_from b.val = .error (.invalidBootloaderCommand b.val)) := by
  decide

/-- Witness for C7: the concrete byte `0x05` decodes to neither a response nor
a command, with the advertised error payloads. -/
theorem decode_exhaustive_witness :
    Response.try_from 0x05 = .error (.invalidResponse 0x05) ∧
    BootloaderCommand.try_from 0x05 = .error (.invalidBootloaderCommand 0x05) :=
  ⟨(decode_exhaustive 5).2.2.2.1 (by decide),
   (decode_exhaustive 5).2.2.2.2.2 (by decide)⟩

/-- Claim C8: for every byte sequence, the XOR-fold checksum with seed 0
satisfies `checksum bs ^^^ checksum bs = 0`, and folding the sequence extended
by its own checksum byte yields 0. -/
theorem checksum_self_inverse :
    ∀ bs : List Nat,
      checksum bs ^^^ checksum bs = 0 ∧ checksum (bs ++ [checksum bs]) = 0 := by
  intro bs
  refine ⟨Nat.xor_self _, ?_⟩
  simp [checksum, List.foldl_append]

/-- Claim C1 (code bug): `read_memory` does NOT begin its exchange with the
ReadMemory command header.  Concretely, reading 1 byte at `0x08000000` from a
device that acks everything and sends the data byte `0xAB` succeeds, and the
first two bytes the host sent are `[0x31, 0xCE]` — the WriteMemory header
(`write_command s .writeMemory`, src/stm32-an3155/src/lib.rs:522) — whereas
`ReadMemory`'s own header, which the claim requires, is `[0x11, 0xEE]`. -/
theorem read_memory_sends_writememory_header :
    read_memory ⟨[0x79, 0x79, 0xAB, 0x79], []⟩ 0x08000000 [0x00] =
      .ok ([0x00], ⟨[], [0x31, 0xCE, 0x08, 0x00, 0x00, 0x00, 0x08, 0x00, 0xFF]⟩) ∧
    encode_command .writeMemory = [0x31, 0xCE] ∧
    encode_command .readMemory = [0x11, 0xEE] := by
  decide

/-- Claim C2 (code bug): a successful `read_memory` consumes the `n` data bytes
from the stream but never stores them into the caller's destination buffer
(the source reads into a local `Vec`, src/stm32-an3155/src/lib.rs:529-534).
Concretely, reading 1 byte at address 0 from a device that sends the data byte
`0xAB` succeeds with the destination still `[0x00]`, not `[0xAB]`, even though
the `0xAB` was consumed from the stream. -/
theorem read_memory_ignores_device_data :
    read_memory ⟨[0x79, 0x79, 0xAB, 0x79], []⟩ 0 [0x00] =
      .ok ([0x00], ⟨[], [0x31, 0xCE, 0x00, 0x00, 0x00, 0x00, 0x00, 0x00, 0xFF]⟩) ∧
    [(0x00 : Nat)] ≠ [0xAB] := by
  decide

/-- Claim C3 (code bug): against an always-acking bootloader that echoes the
written 256-byte chunk back for the read, flashing 300 bytes of `0x01` at
`0x08000000` with verification enabled does NOT issue 2 write and 2 read calls
with successful verification: the first `read_memory` reads 0 data bytes (the
`u8` expression `(n + 1)` wraps to 0 for a 256-byte chunk) and then consumes
the first echoed data byte `0x01` as an ack, so `flash` aborts with
`InvalidResponse 1` after exactly one write call and one read call whose
returned buffer is still all zeros.  With verification skipped the same image
is correctly chunked into 256- and 44-byte writes at `0x08000000` and
`0x08000100`, isolating the failure to the read-back path. -/
theorem flash_verification_breaks :
    flash ⟨List.replicate 5 0x79 ++ List.replicate 256 1 ++ [0x79], []⟩
        0x08000000 (List.replicate 300 1) false =
      .err (.invalidResponse 1)
        ⟨[(0x08000000, List.replicate 256 1)], [(0x08000000, List.replicate 256 0)]⟩
        ⟨List.replicate 255 1 ++ [0x79],
         [0x31, 0xCE, 0x08, 0x00, 0x00, 0x00, 0x08, 0xFF] ++ List.replicate 256 1 ++
           [0xFF, 0x31, 0xCE, 0x08, 0x00, 0x00, 0x00, 0x08, 0xFF, 0x00]⟩ ∧
    flash ⟨List.replicate 6 0x79, []⟩ 0x08000000 (List.replicate 300 1) true =
      .done
        ⟨[(0x08000000, List.replicate 256 1), (0x08000100, List.replicate 44 1)], []⟩
        ⟨[], [0x31, 0xCE, 0x08, 0x00, 0x00, 0x00, 0x08, 0xFF] ++ List.replicate 256 1 ++
          [0xFF, 0x31, 0xCE, 0x08, 0x00, 0x01, 0x00, 0x09, 0x2B] ++
          List.replicate 44 1 ++ [0x2B]⟩ := by
  decide

/-- Reading one byte from a stream whose device input starts with `b` yields
`b` and consumes it. -/
theorem read_byte_cons (b : Nat) (rest out : List Nat) :
    read_byte ⟨b :: rest, out⟩ = .ok (b, ⟨rest, out⟩) := by
  simp [read_byte, read_exact]

/-- Reading an ack from a stream whose device input starts with `0x79`
succeeds and consumes the byte. -/
theorem read_ack_cons_ack (rest out : List Nat) :
    read_ack ⟨0x79 :: rest, out⟩ = .ok ((), ⟨rest, out⟩) := by
  simp [read_ack, read_byte_cons, Response.try_from]

/-- Reading exactly two bytes from a stream with at least two input bytes. -/
theorem read_exact_two (a b : Nat) (rest out : List Nat) :
    read_exact ⟨a :: b :: rest, out⟩ 2 = .ok ([a, b], ⟨rest, out⟩) := by
  simp [read_exact]

/-- Sending a command header to a device that answers `0x79` appends the
two header bytes to the output and consumes the ack. -/
theorem write_command_cons_ack (c : BootloaderCommand) (rest out : List Nat) :
    write_command ⟨0x79 :: rest, out⟩ c =
      .ok ((), ⟨rest, out ++ encode_command c⟩) := by
  simp [write_command, write_all, encode_command, read_ack_cons_ack]

/-- `write_with_checksum` appends the bytes and their checksum. -/
theorem write_with_checksum_eq (s : Stream) (bytes : List Nat) :
    write_with_checksum s bytes =
      .ok (bytes.length + 1, ⟨s.input, s.output ++ bytes ++ [checksum bytes]⟩) := by
  cases s
  simp [write_with_checksum, write_all, List.append_assoc]

/-- Claim C4, amended: `get_id` sends the GetId command header `[0x02, 0xFD]`,
reads an ack, reads a length-prefix byte that must equal 1 (any other value
fails the call with `InvalidResponse` carrying that byte), reads 2 big-endian
bytes returned as the u16 product ID, and returns immediately — it does not
read a trailing ack. -/
theorem get_id_exchange :
    (∀ inp out a b rest, inp = 0x79 :: 1 :: a :: b :: rest →
        get_id ⟨inp, out⟩ = .ok (a * 256 + b, ⟨rest, out ++ [0x02, 0xFD]⟩)) ∧
    (∀ inp out n rest, n < 256 → n ≠ 1 → inp = 0x79 :: n :: rest →
        get_id ⟨inp, out⟩ =
          .error (.invalidResponse n, ⟨rest, out ++ [0x02, 0xFD]⟩)) := by
  constructor
  · intro inp out a b rest hinp
    subst hinp
    simp [get_id, write_command_cons_ack, encode_command, BootloaderCommand.toByte,
      compl8, read_byte_cons, read_exact_two, u16_from_be]
  · intro inp out n rest hlt hne hinp
    subst hinp
    simp [get_id, write_command_cons_ack, encode_command, BootloaderCommand.toByte,
      compl8, read_byte_cons, hne, Nat.mod_eq_of_lt hlt]

/-- Witness for C4's theorem: a device that acks and answers length 1 and id
bytes `0x12 0x34` gives product id `0x1234`; a device whose length byte is 5
makes the call fail with `InvalidResponse 5`. -/
theorem get_id_exchange_witness :
    get_id ⟨[0x79, 0x01, 0x12, 0x34], []⟩ = .ok (0x1234, ⟨[], [0x02, 0xFD]⟩) ∧
    get_id ⟨[0x79, 0x05], []⟩ =
      .error (.invalidResponse 0x05, ⟨[], [0x02, 0xFD]⟩) :=
  ⟨get_id_exchange.1 _ [] 0x12 0x34 [] rfl,
   get_id_exchange.2 _ [] 0x05 [] (by decide) (by decide) rfl⟩

/-- Claim C4, counterexample to the claim as stated: `get_id` returns without
reading a trailing ack.  With device input `[0x79, 0x01, 0x12, 0x34, 0x1F]`
the call succeeds and the final byte — a Nack — is still unread; had the call
read a trailing ack as claimed, it would have consumed the `0x1F` and failed
with the `Nack` error, as the second conjunct shows. -/
theorem get_id_leaves_trailing_response :
    get_id ⟨[0x79, 0x01, 0x12, 0x34, 0x1F], []⟩ =
      .ok (0x1234, ⟨[0x1F], [0x02, 0xFD]⟩) ∧
    read_ack ⟨[0x1F], [0x02, 0xFD]⟩ = .error (.nack, ⟨[], [0x02, 0xFD]⟩) := by
  decide

/-- Claim C5: `write_memory` called with a 257-byte slice fails with
`WriteBytesCount 257` (with nothing written); called with exactly 256 bytes
and a device that acks each step, it succeeds and transmits the whole slice in
a single data frame `[0xFF, data..., checksum]` whose length byte is
`0xFF = 255`, after the `[0x31, 0xCE]` header and the checksummed big-endian
address frame — not split into smaller transfers. -/
theorem write_memory_bounds :
    (∀ s address bytes, bytes.length = 257 →
        write_memory s address bytes = .error (.writeBytesCount 257, s)) ∧
    (∀ inp out address bytes rest, bytes.length = 256 → address < 2 ^ 32 →
        inp = 0x79 :: 0x79 :: 0x79 :: rest →
        write_memory ⟨inp, out⟩ address bytes =
          .ok ((), ⟨rest,
            out ++ [0x31, 0xCE] ++ u32_be address ++ [checksum (u32_be address)] ++
              [0xFF] ++ bytes ++
              [bytes.foldl (fun acc b => acc ^^^ b) 0xFF]⟩)) := by
  constructor
  · intro s address bytes hlen
    cases bytes with
    | nil => simp at hlen
    | cons b bs =>
      simp [write_memory, MAX_WRITE_BYTES_COUNT, hlen]
  · intro inp out address bytes rest hlen haddr hinp
    subst hinp
    have hmod : address % 4294967296 = address := Nat.mod_eq_of_lt haddr
    cases bytes with
    | nil => simp at hlen
    | cons b bs =>
      simp [write_memory, MAX_WRITE_BYTES_COUNT, hlen, hmod,
        write_command_cons_ack, encode_command, BootloaderCommand.toByte, compl8,
        write_with_checksum_eq, read_ack_cons_ack, write_all, len_byte,
        List.append_assoc]

/-- Witness for C5's theorem: 257 zero bytes are rejected with
`WriteBytesCount 257`; 256 bytes of `0x07` at address `0x08000100` are sent in
one frame with length byte `0xFF` and succeed against three acks. -/
theorem write_memory_bounds_witness :
    write_memory ⟨[0x79, 0x79, 0x79], []⟩ 0 (List.replicate 257 0) =
      .error (.writeBytesCount 257, ⟨[0x79, 0x79, 0x79], []⟩) ∧
    write_memory ⟨[0x79, 0x79, 0x79], []⟩ 0x08000100 (List.replicate 256 7) =
      .ok ((), ⟨[],
        [] ++ [0x31, 0xCE] ++ u32_be 0x08000100 ++ [checksum (u32_be 0x08000100)] ++
          [0xFF] ++ List.replicate 256 7 ++
          [(List.replicate 256 7).foldl (fun acc b => acc ^^^ b) 0xFF]⟩) :=
  ⟨write_memory_bounds.1 _ 0 _ (by simp),
   write_memory_bounds.2 _ [] 0x08000100 _ [] (by simp) (by decide) rfl⟩

/-- Claim C6: `standard_erase` with an empty page list returns success without
touching the stream; with 255 pages and a device that acks twice it succeeds,
sending the Erase header `[0x43, 0xBC]`, the count byte `0xFE = 254`, the
pages, and the checksum; with more than 255 pages it fails with
`ErasePageCount` carrying the offending length, the stream untouched (nothing
written). -/
theorem standard_erase_bounds :
    (∀ s, standard_erase s [] = .ok ((), s)) ∧
    (∀ inp out pages rest, pages.length = 255 → inp = 0x79 :: 0x79 :: rest →
        standard_erase ⟨inp, out⟩ pages =
          .ok ((), ⟨rest,
            out ++ [0x43, 0xBC, 0xFE] ++ pages ++
              [pages.foldl (fun acc page => acc ^^^ page) 0xFE]⟩)) ∧
    (∀ s pages, pages.length > 255 →
        standard_erase s pages = .error (.erasePageCount pages.length, s)) := by
  refine ⟨fun s => rfl, ?_, ?_⟩
  · intro inp out pages rest hlen hinp
    subst hinp
    cases pages with
    | nil => simp at hlen
    | cons p ps =>
      simp [standard_erase, MAX_ERASE_PAGE_COUNT, hlen, write_command_cons_ack,
        encode_command, BootloaderCommand.toByte, compl8, write_all,
        read_ack_cons_ack, List.append_assoc]
  · intro s pages hlen
    cases pages with
    | nil => simp at hlen
    | cons p ps =>
      simp only [standard_erase, List.isEmpty_cons, Bool.false_eq_true,
        if_false, MAX_ERASE_PAGE_COUNT]
      rw [if_pos hlen]

/-- Witness for C6's theorem: the empty list is a no-op; 255 pages of `0x03`
succeed against two acks; 256 pages fail with `ErasePageCount 256`. -/
theorem standard_erase_bounds_witness :
    standard_erase ⟨[], []⟩ [] = .ok ((), ⟨[], []⟩) ∧
    standard_erase ⟨[0x79, 0x79], []⟩ (List.replicate 255 3) =
      .ok ((), ⟨[],
        [] ++ [0x43, 0xBC, 0xFE] ++ List.replicate 255 3 ++
          [(List.replicate 255 3).foldl (fun acc page => acc ^^^ page) 0xFE]⟩) ∧
    standard_erase ⟨[], []⟩ (List.replicate 256 3) =
      .error (.erasePageCount 256, ⟨[], []⟩) :=
  ⟨standard_erase_bounds.1 _,
   standard_erase_bounds.2.1 _ [] _ [] (by simp) rfl,
   by
    have h := standard_erase_bounds.2.2 ⟨[], []⟩ (List.replicate 256 3) (by simp)
    simpa using h⟩

/-- Claim C9: the erase planner yields the contiguous page range
`[start_page, start_page + page_count)` with
`start_page = (address - base) / page_size` and
`page_count = ceil(length / page_size)` (for naturals, `(length + 127) / 128`);
in particular for base `0x08000000`, page size 128, address `0x08000000`, and
length 300 it yields exactly the pages `[0, 1, 2]`. -/
theorem pages_planner :
    (∀ address bytes, DEFAULT_START_ADDRESS ≤ address →
      (pages_to_erase address bytes).length = (bytes + 127) / 128 ∧
      (∀ p, p ∈ pages_to_erase address bytes ↔
        (address - DEFAULT_START_ADDRESS) / 128 ≤ p ∧
          p < (address - DEFAULT_START_ADDRESS) / 128 + (bytes + 127) / 128)) ∧
    pages_to_erase 0x08000000 300 = [0, 1, 2] := by
  constructor
  · intro address bytes _
    refine ⟨?_, fun p => ?_⟩
    · simp [pages_to_erase, DEFAULT_PAGE_SIZE, List.length_range']
    · simp [pages_to_erase, DEFAULT_PAGE_SIZE, List.mem_range'_1]
  · decide

/-- Witness for C9's theorem: at the concrete instance base `0x08000000`,
address `0x08000000`, length 300, the plan has 3 pages and page 2 is one of
them. -/
theorem pages_planner_witness :
    (pages_to_erase 0x08000000 300).length = 3 ∧
    2 ∈ pages_to_erase 0x08000000 300 :=
  ⟨(pages_planner.1 0x08000000 300 (Nat.le_refl _)).1,
   ((pages_planner.1 0x08000000 300 (Nat.le_refl _)).2 2).mpr (by decide)⟩

/-- Claim C10: for every destination buffer longer than 256 bytes,
`read_memory` fails with the write-side error `WriteBytesCount` carrying the
buffer length (the `Error` enum has no read-byte-count variant; the source
reuses `Error::WriteBytesCount`, src/stm32-an3155/src/lib.rs:518), with
nothing written to the stream. -/
theorem read_memory_oversize_error :
    ∀ s address dest, MAX_READ_BYTES_COUNT < dest.length →
      read_memory s address dest = .error (.writeBytesCount dest.length, s) := by
  intro s address dest hlen
  simp only [MAX_READ_BYTES_COUNT] at hlen
  cases dest with
  | nil => simp at hlen
  | cons b bs =>
    simp only [read_memory, List.isEmpty_cons, Bool.false_eq_true, if_false,
      MAX_READ_BYTES_COUNT]
    rw [if_pos hlen]

/-- Witness for C10's theorem: a 257-byte destination is rejected with
`WriteBytesCount 257`. -/
theorem read_memory_oversize_error_witness :
    read_memory ⟨[], []⟩ 0 (List.replicate 257 0) =
      .error (.writeBytesCount 257, ⟨[], []⟩) := by
  have h := read_memory_oversize_error ⟨[], []⟩ 0 (List.replicate 257 0)
    (by simp [MAX_READ_BYTES_COUNT])
  simpa using h

end AN3155
